import Mathlib

/-!
Verification of the spreadsheet ingestion and normalization pipeline of the
DashBemonc6 dashboard (`src/lib/backend/google-sheets-client.ts`).

The TypeScript functions are shallowly embedded as Lean functions:

* spreadsheet cell values (`string | number | null | undefined`) become
  `Option Value` with `Value := vStr String | vNum Int` — `none` stands for a
  JavaScript `null`/`undefined`/absent value (the three are indistinguishable
  to every function modelled here, which only tests presence, emptiness and
  truthiness);
* a `sheet_to_json` row becomes an association list `Row`;
* a workbook becomes a list of named worksheets, each carrying both its raw
  cell grid (used by the IPC extractor) and its `sheet_to_json` row view
  (used by the compliance extractor and the task fetch path);
* a per-source HTTP fetch becomes a `FetchOutcome` (`fail` for a non-success
  status / network failure / undecodable payload, `ok wb` for a decoded
  workbook); the `async` pipelines become pure functions of these outcomes.

JavaScript numbers are modelled as integers: no claim under verification
depends on fractional or floating-point behaviour.
-/

set_option synthInstance.maxSize 1024
set_option synthInstance.maxHeartbeats 1000000
set_option maxHeartbeats 1000000

namespace GS

/-- A present spreadsheet value: a string or a number
(`string | number` in the TypeScript `SheetRow` value type). -/
inductive Value where
  | vStr (s : String)
  | vNum (n : Int)
deriving DecidableEq, Repr

/-- JavaScript `String(v)` on a present value. -/
def valueToString : Value → String
  | .vStr s => s
  | .vNum n => toString n

/-- Model of the JavaScript `.toLowerCase()` builtin (ASCII range). -/
def jsToLower (s : String) : String := ⟨s.data.map Char.toLower⟩

/-- Whitespace stripped by the JavaScript `.trim()` builtin. -/
def isJsSpace (c : Char) : Bool := c == ' ' || c == '\t' || c == '\n' || c == '\r'

/-- Model of the JavaScript `.trim()` builtin. -/
def jsTrim (s : String) : String :=
  ⟨((s.data.dropWhile isJsSpace).reverse.dropWhile isJsSpace).reverse⟩

/-- JavaScript truthiness of a present value (`""` and `0` are falsy). -/
def Value.truthy : Value → Bool
  | .vStr s => s != ""
  | .vNum n => n != 0

/-- JavaScript truthiness of a possibly-absent value. -/
def jsTruthy : Option Value → Bool
  | none => false
  | some v => v.truthy

/-- A `sheet_to_json` row: header name ↦ cell value.  A key that is absent
from the list models both a missing key and an explicit `null` cell
(`defval: null`); every function embedded here treats the two alike. -/
abbrev Row : Type := List (String × Value)

/-- JavaScript property read `row[key]`. -/
def Row.get? (row : Row) (key : String) : Option Value :=
  (List.find? (fun p => p.1 == key) row).map (·.2)

/-- A normalized Yes/No value (`'Yes' | 'No'` in the TypeScript types;
`Option YN`'s `none` is the `null` = Unknown case). -/
inductive YN where
  | yes
  | no
deriving DecidableEq, Repr

instance : Fintype YN :=
  ⟨⟨{YN.yes, YN.no}, by decide⟩, fun x => by cases x <;> decide⟩

/-- `parseYesNo` (google-sheets-client.ts:34-40):
`if (!val && val !== 0) return null;` then stringify, lowercase, trim and
compare against `"yes"` / `"no"`. -/
def parseYesNo (val : Option Value) : Option YN :=
  if ¬ jsTruthy val ∧ val ≠ some (.vNum 0) then none
  else
    match val with
    | none => none
    | some v =>
      let normalized := jsTrim (jsToLower (valueToString v))
      if normalized = "yes" then some .yes
      else if normalized = "no" then some .no
      else none

/-- `ComplianceStatus` (the `status` union in `@/types`). -/
inductive ComplianceStatus where
  | COMPLIANT
  | NON_COMPLIANT
  | UNKNOWN
deriving DecidableEq, Repr

/-- `PackageCompliance` as produced by `parseComplianceData`. -/
structure PackageCompliance where
  no_of_staff_rfb : Option YN
  cesmps_submitted : Option YN
  ohs_measures : Option YN
  status : ComplianceStatus
  issues : List String
deriving DecidableEq, Repr

/-- `RawComplianceData` (google-sheets-client.ts:9-13). -/
structure RawComplianceData where
  no_of_staff_rfb : Option Value
  cesmps_submitted : Option Value
  ohs_measures : Option Value
deriving DecidableEq, Repr

/-- The status/issue computation of `parseComplianceData`
(google-sheets-client.ts:46-79), after the three `parseYesNo` calls. -/
def complianceCore (staffRfb cesmps ohs : Option YN) : PackageCompliance :=
  if staffRfb = none ∧ cesmps = none ∧ ohs = none then
    { no_of_staff_rfb := staffRfb, cesmps_submitted := cesmps, ohs_measures := ohs
    , status := .UNKNOWN, issues := ["All compliance fields are blank"] }
  else
    let issues : List String :=
      (if staffRfb ≠ some .yes then
        [if staffRfb = none then "Staff RFB status unknown" else "Staff RFB not submitted"]
       else []) ++
      (if cesmps ≠ some .yes then
        [if cesmps = none then "CESMPS submission status unknown" else "CESMPS not submitted"]
       else []) ++
      (if ohs ≠ some .yes then
        [if ohs = none then "OHS measures status unknown" else "OHS measures not in place"]
       else [])
    let status : ComplianceStatus := if issues.length = 0 then .COMPLIANT else .NON_COMPLIANT
    { no_of_staff_rfb := staffRfb, cesmps_submitted := cesmps, ohs_measures := ohs
    , status := status, issues := issues }

/-- `parseComplianceData` (google-sheets-client.ts:22-80). -/
def parseComplianceData (raw : Option RawComplianceData) : PackageCompliance :=
  match raw with
  | none =>
    { no_of_staff_rfb := none, cesmps_submitted := none, ohs_measures := none
    , status := .UNKNOWN, issues := ["Compliance data not available"] }
  | some r =>
    complianceCore (parseYesNo r.no_of_staff_rfb) (parseYesNo r.cesmps_submitted)
      (parseYesNo r.ohs_measures)

/-- The issue entry a non-Yes field contributes, per the specified invariant:
nothing for Yes, an "unknown" message for Unknown, a "not submitted / not in
place" message for No. -/
def issueFor (v : Option YN) (unknownMsg notMsg : String) : List String :=
  if v = some .yes then [] else [if v = none then unknownMsg else notMsg]

/-- The issue list the specification prescribes: exactly one entry per
non-Yes field, in field order. -/
def expectedIssues (a b o : Option YN) : List String :=
  issueFor a "Staff RFB status unknown" "Staff RFB not submitted" ++
  issueFor b "CESMPS submission status unknown" "CESMPS not submitted" ++
  issueFor o "OHS measures status unknown" "OHS measures not in place"

lemma complianceCore_status_issues (a b o : Option YN) :
    ((complianceCore a b o).status = .UNKNOWN ↔ a = none ∧ b = none ∧ o = none)
    ∧ ((complianceCore a b o).status = .COMPLIANT ↔
        a = some .yes ∧ b = some .yes ∧ o = some .yes)
    ∧ (¬(a = none ∧ b = none ∧ o = none) →
        ¬(a = some .yes ∧ b = some .yes ∧ o = some .yes) →
        (complianceCore a b o).status = .NON_COMPLIANT ∧
          (complianceCore a b o).issues = expectedIssues a b o) := by
  revert a b o
  decide

/-- C1: For every raw compliance input, the record returned by
`parseComplianceData` has status Unknown iff all three normalized fields are
Unknown, status Compliant iff all three are Yes, and otherwise NonCompliant
with exactly one issue entry per non-Yes field (an "unknown" message for an
Unknown field, a "not submitted / not in place" message for a No field); in
particular `{staffRfb:"Yes", cesmps:"no", ohs:null}` yields NonCompliant with
issues `["CESMPS not submitted", "OHS measures status unknown"]`. -/
theorem C1_parseComplianceData_status_invariant (raw : RawComplianceData) :
    ((parseComplianceData (some raw)).status = .UNKNOWN ↔
      parseYesNo raw.no_of_staff_rfb = none ∧ parseYesNo raw.cesmps_submitted = none ∧
        parseYesNo raw.ohs_measures = none)
    ∧ ((parseComplianceData (some raw)).status = .COMPLIANT ↔
      parseYesNo raw.no_of_staff_rfb = some .yes ∧
        parseYesNo raw.cesmps_submitted = some .yes ∧
        parseYesNo raw.ohs_measures = some .yes)
    ∧ (¬(parseYesNo raw.no_of_staff_rfb = none ∧ parseYesNo raw.cesmps_submitted = none ∧
          parseYesNo raw.ohs_measures = none) →
        ¬(parseYesNo raw.no_of_staff_rfb = some .yes ∧
            parseYesNo raw.cesmps_submitted = some .yes ∧
            parseYesNo raw.ohs_measures = some .yes) →
        (parseComplianceData (some raw)).status = .NON_COMPLIANT ∧
          (parseComplianceData (some raw)).issues =
            expectedIssues (parseYesNo raw.no_of_staff_rfb)
              (parseYesNo raw.cesmps_submitted) (parseYesNo raw.ohs_measures))
    ∧ parseComplianceData (some ⟨some (.vStr "Yes"), some (.vStr "no"), none⟩) =
        { no_of_staff_rfb := some .yes, cesmps_submitted := some .no, ohs_measures := none
        , status := .NON_COMPLIANT
        , issues := ["CESMPS not submitted", "OHS measures status unknown"] } := by
  refine ⟨?_, ?_, ?_, by decide⟩ <;>
    exact (by
      have h := complianceCore_status_issues (parseYesNo raw.no_of_staff_rfb)
        (parseYesNo raw.cesmps_submitted) (parseYesNo raw.ohs_measures)
      first
        | exact h.1
        | exact h.2.1
        | exact h.2.2)

/-- Witness for C1 at the spec's example input. -/
theorem C1_witness :
    (parseComplianceData (some ⟨some (.vStr "Yes"), some (.vStr "no"), none⟩)).status =
        .NON_COMPLIANT ∧
      (parseComplianceData (some ⟨some (.vStr "Yes"), some (.vStr "no"), none⟩)).issues =
        expectedIssues (some .yes) (some .no) none :=
  (C1_parseComplianceData_status_invariant
    ⟨some (.vStr "Yes"), some (.vStr "no"), none⟩).2.2.1 (by decide) (by decide)

/-- Embedding of an already-normalized Yes/No/Unknown result back into a raw
cell value, the way it would reappear in a sheet (`'Yes'`, `'No'`, `null`). -/
def ynToValue : Option YN → Option Value
  | some .yes => some (.vStr "Yes")
  | some .no => some (.vStr "No")
  | none => none

/-- C9: the cell normalizer `parseYesNo` is idempotent — re-normalizing an
already-normalized `'Yes'` / `'No'` / `null` result returns that same
result, i.e. `parseYesNo (parseYesNo v) = parseYesNo v` for every value. -/
theorem C9_parseYesNo_idempotent (v : Option Value) :
    parseYesNo (ynToValue (parseYesNo v)) = parseYesNo v := by
  cases h : parseYesNo v with
  | none => decide
  | some yn => cases yn <;> decide

/-- A worksheet's sparse cell grid, addressed by 0-based (row, column);
a pair absent from the list is an absent cell (`sheet[addr]` undefined). -/
abbrev Sheet : Type := List ((Nat × Nat) × Value)

/-- The cell read `sheet[XLSX.utils.encode_cell({r, c})]`. -/
def Sheet.cell (sheet : Sheet) (r c : Nat) : Option Value :=
  (List.find? (fun p => p.1 == (r, c)) sheet).map (·.2)

/-- `IPCStatus` (the status union in `@/types`); the `null` = Unknown case is
`none` in `Option IPCStatus`. -/
inductive IPCStatus where
  | notSubmitted
  | submitted
  | inProcess
  | released
deriving DecidableEq, Repr

/-- `IPCRecord` (`@/types`). -/
structure IPCRecord where
  ipcNumber : String
  status : Option IPCStatus
deriving DecidableEq, Repr

/-- `IPCData` (`@/types`). -/
structure IPCData where
  records : List IPCRecord
deriving DecidableEq, Repr

/-- `ipcLabels` (google-sheets-client.ts:90). -/
def ipcLabels : List String :=
  ["IPC 1", "IPC 2", "IPC 3", "IPC 4", "IPC 5", "IPC 6"]

/-- The `statusMap` dictionary lookup of `parseIPCData`
(google-sheets-client.ts:114-119). -/
def statusMapLookup (raw : String) : Option IPCStatus :=
  if raw = "not submitted" then some .notSubmitted
  else if raw = "submitted" then some .submitted
  else if raw = "in process" then some .inProcess
  else if raw = "released" then some .released
  else none

/-- One loop iteration of `parseIPCData` (google-sheets-client.ts:107-126):
`statusRaw = cellValue?.v ? String(cellValue.v).toLowerCase().trim() : null`
and `status = statusRaw && statusMap[statusRaw] ? statusMap[statusRaw] : null`. -/
def parseIPCCell (cell : Option Value) : Option IPCStatus :=
  match cell with
  | none => none
  | some v =>
    if v.truthy then
      let raw := jsTrim (jsToLower (valueToString v))
      if raw ≠ "" ∧ (statusMapLookup raw).isSome then statusMapLookup raw else none
    else none

/-- `parseIPCData` (google-sheets-client.ts:85-132): read row index 1,
column indices 24..29, in column order. -/
def parseIPCData (sheet : Sheet) : IPCData :=
  { records :=
      (List.range 6).map fun i =>
        let col := 24 + i
        { ipcNumber := ipcLabels.getD (col - 24) ""
        , status := parseIPCCell (sheet.cell 1 col) } }

/-- The cell-to-status mapping as the specification's words state it: the
cell value, lowercased and trimmed, is mapped through the closed vocabulary
{"not submitted", "submitted", "in process", "released"}; every value
outside that vocabulary, including an absent cell, maps to Unknown. -/
def ipcStatusSpec (cell : Option Value) : Option IPCStatus :=
  match cell with
  | none => none
  | some v =>
    let s := jsTrim (jsToLower (valueToString v))
    if s = "not submitted" then some .notSubmitted
    else if s = "submitted" then some .submitted
    else if s = "in process" then some .inProcess
    else if s = "released" then some .released
    else none

lemma guarded_statusMapLookup (raw : String) :
    (if raw ≠ "" ∧ (statusMapLookup raw).isSome then statusMapLookup raw else none) =
      statusMapLookup raw := by
  by_cases hr : raw = ""
  · subst hr; decide
  · cases h : statusMapLookup raw <;> simp [h, hr]

lemma parseIPCCell_eq_spec (cell : Option Value) :
    parseIPCCell cell = ipcStatusSpec cell := by
  cases cell with
  | none => rfl
  | some v =>
    cases v with
    | vStr s =>
      by_cases hs : s = ""
      · subst hs; decide
      · have ht : Value.truthy (.vStr s) = true := by simp [Value.truthy, hs]
        simp only [parseIPCCell, ipcStatusSpec, ht, if_true, guarded_statusMapLookup]
        rfl
    | vNum n =>
      by_cases hn : n = 0
      · subst hn; decide
      · have ht : Value.truthy (.vNum n) = true := by simp [Value.truthy, hn]
        simp only [parseIPCCell, ipcStatusSpec, ht, if_true, guarded_statusMapLookup]
        rfl

/-- C3: `parseIPCData` reads the six fixed cells (row index 1, columns 24..29)
in column order, labels them "IPC 1" .. "IPC 6", and maps each cell value,
lowercased and trimmed, through the closed vocabulary
{"not submitted", "submitted", "in process", "released"}; anything outside
the vocabulary (including an absent or empty cell) becomes Unknown. -/
theorem C3_parseIPCData_fixed_cells (sheet : Sheet) :
    (parseIPCData sheet).records =
      (List.range 6).map fun i =>
        { ipcNumber := "IPC " ++ toString (i + 1)
        , status := ipcStatusSpec (sheet.cell 1 (24 + i)) } := by
  refine List.map_congr_left ?_
  intro i hi
  rw [List.mem_range] at hi
  interval_cases i <;>
    simp [ipcLabels, parseIPCCell_eq_spec] <;> decide

/-- A configured `SheetSource` (`SHEET_SOURCES` entry in `./config`). -/
structure Source where
  packageId : String
  packageName : String
  publishedXlsxUrl : String
deriving DecidableEq, Repr

/-- One decoded worksheet, carrying the two views the pipeline reads:
its sparse cell grid (IPC extraction) and its `sheet_to_json` row list
(compliance extraction and task-row fetching). -/
structure Worksheet where
  cells : Sheet
  rows : List Row
deriving DecidableEq, Repr

/-- A decoded workbook: named worksheets in workbook order. -/
structure Workbook where
  sheets : List (String × Worksheet)
deriving DecidableEq, Repr

/-- `workbook.SheetNames`. -/
def Workbook.sheetNames (wb : Workbook) : List String := wb.sheets.map (·.1)

/-- `workbook.Sheets[name]`. -/
def Workbook.findSheet (wb : Workbook) (name : String) : Option Worksheet :=
  (List.find? (fun p => p.1 == name) wb.sheets).map (·.2)

/-- The outcome of one source's fetch-and-decode: `fail` covers a non-success
HTTP status, a network failure and an undecodable payload (each of which
throws inside the per-source `try`), `ok wb` a decoded workbook. -/
inductive FetchOutcome where
  | fail
  | ok (wb : Workbook)
deriving DecidableEq, Repr

/-- `fetchAllIPCData` (google-sheets-client.ts:138-170) as a function of the
configured source list, the configured tab name (`CONFIG.tabName`) and the
first source's fetch outcome (only `SHEET_SOURCES[0]` is ever fetched).
Every `throw` lands in the surrounding `catch`, which returns
`{ records: [] }`. -/
def fetchAllIPCData (sources : List Source) (tabName : String)
    (fetch : FetchOutcome) : IPCData :=
  match sources with
  | [] => { records := [] }
  | _ :: _ =>
    match fetch with
    | .fail => { records := [] }
    | .ok wb =>
      match wb.findSheet tabName with
      | none => { records := [] }
      | some ws => parseIPCData ws.cells

/-- C2: the IPC extraction result always contains exactly 0 or exactly 6
records, never 1 to 5; and each degraded case — an empty source list, a
failed fetch, and a workbook without the designated worksheet — yields the
empty record list (not six Unknown records). -/
theorem C2_ipc_zero_or_six (sources : List Source) (tabName : String)
    (fetch : FetchOutcome) :
    ((fetchAllIPCData sources tabName fetch).records.length = 0 ∨
      (fetchAllIPCData sources tabName fetch).records.length = 6)
    ∧ (∀ tab f, fetchAllIPCData [] tab f = { records := [] })
    ∧ (∀ (src : Source) (rest : List Source) (tab : String),
        fetchAllIPCData (src :: rest) tab .fail = { records := [] })
    ∧ (∀ (src : Source) (rest : List Source) (tab : String) (wb : Workbook),
        wb.findSheet tab = none →
        fetchAllIPCData (src :: rest) tab (.ok wb) = { records := [] }) := by
  refine ⟨?_, fun tab f => rfl, fun src rest tab => rfl,
    fun src rest tab wb h => by simp [fetchAllIPCData, h]⟩
  cases sources with
  | nil => exact Or.inl rfl
  | cons s rest =>
    cases fetch with
    | fail => exact Or.inl rfl
    | ok wb =>
      cases h : wb.findSheet tabName with
      | none => simp [fetchAllIPCData, h]
      | some ws => simp [fetchAllIPCData, h, parseIPCData]

/-- Witness for C2's degraded cases: a workbook that lacks the designated
"Data_Entry" worksheet yields the empty record list, and so does a failed
fetch — not six Unknown records. -/
theorem C2_witness :
    fetchAllIPCData [⟨"P1", "Package 1", "u1"⟩] "Data_Entry"
        (.ok ⟨[("Sheet2", ⟨[], []⟩)]⟩) = { records := [] }
    ∧ fetchAllIPCData [⟨"P1", "Package 1", "u1"⟩] "Data_Entry" .fail =
        { records := [] } :=
  ⟨(C2_ipc_zero_or_six [] "x" .fail).2.2.2 ⟨"P1", "Package 1", "u1"⟩ [] "Data_Entry"
      ⟨[("Sheet2", ⟨[], []⟩)]⟩ (by decide),
    (C2_ipc_zero_or_six [] "x" .fail).2.2.1 ⟨"P1", "Package 1", "u1"⟩ [] "Data_Entry"⟩

/-- Worksheet selection in `fetchAllComplianceData` (:199-202) and
`fetchAllSheets` (:307-310): `let sheetName = 'Data_Entry'; if
(!workbook.SheetNames.includes(sheetName)) { sheetName = workbook.SheetNames[0] }`.
`none` arises only for a workbook with no sheets at all, where
`SheetNames[0]` is `undefined`. -/
def selectSheetName (wb : Workbook) : Option String :=
  if wb.sheetNames.contains "Data_Entry" then some "Data_Entry"
  else wb.sheetNames.head?

/-- `workbook.Sheets[sheetName]` for the selected name. -/
def selectSheet (wb : Workbook) : Option Worksheet :=
  (selectSheetName wb).bind wb.findSheet

/-- The per-field column scan of `fetchAllComplianceData` (:230-253):
`for (const colName of names) { if (colName in row && row[colName] !== null
&& row[colName] !== undefined && row[colName] !== '') { value = row[colName];
break; } }`. -/
def findColumnValue (names : List String) (row : Row) : Option Value :=
  match names with
  | [] => none
  | n :: rest =>
    match row.get? n with
    | some v => if v ≠ .vStr "" then some v else findColumnValue rest row
    | none => findColumnValue rest row

/-- `staffRfbNames` (google-sheets-client.ts:222). -/
def staffRfbNames : List String :=
  ["No_of_Staff_RFB", "No of Staff RFB", "Staff RFB", "No_of_Staff_RFB"]

/-- `cesmpNames` (google-sheets-client.ts:223). -/
def cesmpNames : List String :=
  ["CESMPS_Submitted", "CESMPS_Submitte", "CEMSPS_Submitted", "CESMPS"]

/-- `ohsNames` (google-sheets-client.ts:224). -/
def ohsNames : List String :=
  ["OHS_Measures", "OHS Measures", "OHS", "OHS_Measures"]

/-- The raw record assembled at google-sheets-client.ts:255-259
(`cesmpsValue?.toString() ?? null`, likewise for OHS). -/
def rawFromRow (row : Row) : RawComplianceData :=
  { no_of_staff_rfb := findColumnValue staffRfbNames row
  , cesmps_submitted :=
      (findColumnValue cesmpNames row).map (fun v => .vStr (valueToString v))
  , ohs_measures :=
      (findColumnValue ohsNames row).map (fun v => .vStr (valueToString v)) }

/-- The row `fetchAllComplianceData` reads for one source: the first
`sheet_to_json` row of the selected worksheet.  `none` covers a failed fetch
(the per-source `catch`), a workbook with no selectable worksheet, and an
empty row list — each of those paths ends in `parseComplianceData(null)`. -/
def complianceRow (f : FetchOutcome) : Option Row :=
  match f with
  | .fail => none
  | .ok wb => (selectSheet wb).bind fun ws => ws.rows.head?

/-- The compliance record one source contributes in `fetchAllComplianceData`
(google-sheets-client.ts:182-271). -/
def complianceForOutcome (f : FetchOutcome) : PackageCompliance :=
  match complianceRow f with
  | none => parseComplianceData none
  | some row => parseComplianceData (some (rawFromRow row))

/-- The rows one source contributes in `fetchAllSheets`: a failed fetch is a
rejected settled result, handled by `dataMap.set(source.packageId, [])`
(:341-344); a fulfilled fetch contributes the selected worksheet's
`sheet_to_json` rows (a workbook with no selectable worksheet yields none). -/
def rowsForOutcome (f : FetchOutcome) : List Row :=
  match f with
  | .fail => []
  | .ok wb =>
    match selectSheet wb with
    | none => []
    | some ws => ws.rows

/-- JavaScript `Map.prototype.set` on an insertion-ordered association list:
replace the value of an existing key in place, else append. -/
def mapSet {α : Type} (m : List (String × α)) (k : String) (v : α) :
    List (String × α) :=
  if m.any (fun p => p.1 == k) then
    m.map fun p => if p.1 == k then (k, v) else p
  else m ++ [(k, v)]

/-- JavaScript `Map.prototype.get`. -/
def mapGet? {α : Type} (m : List (String × α)) (k : String) : Option α :=
  (List.find? (fun p => p.1 == k) m).map (·.2)

/-- The `results.forEach(... map.set(packageId, ...))` aggregation loop shared
by `fetchAllSheets` (:335-345) and `fetchAllComplianceData` (:275-281),
parametrized by what one source's settled outcome contributes. -/
def buildMap {α : Type} (g : Source × FetchOutcome → α)
    (sources : List (Source × FetchOutcome)) : List (String × α) :=
  sources.foldl (fun m p => mapSet m p.1.packageId (g p)) []

/-- `fetchAllSheets` (google-sheets-client.ts:290-348) as a function of each
configured source's fetch outcome: every source is fetched independently
(`Promise.allSettled`), a fulfilled source contributes its rows and a
rejected one an empty row list, keyed by `packageId` in source order. -/
def fetchAllSheets (sources : List (Source × FetchOutcome)) :
    List (String × List Row) :=
  buildMap (fun p => rowsForOutcome p.2) sources

/-- `fetchAllComplianceData` (google-sheets-client.ts:176-284): as
`fetchAllSheets`, but the per-source `catch` converts every failure into an
Unknown compliance record, so each settled result is fulfilled and entered
into the map. -/
def fetchAllComplianceData (sources : List (Source × FetchOutcome)) :
    List (String × PackageCompliance) :=
  buildMap (fun p => complianceForOutcome p.2) sources

lemma mapSet_of_not_mem {α : Type} (m : List (String × α)) (k : String) (v : α)
    (h : ∀ p ∈ m, p.1 ≠ k) : mapSet m k v = m ++ [(k, v)] := by
  have hany : m.any (fun p => p.1 == k) = false := by
    rw [List.any_eq_false]
    intro p hp
    simpa using h p hp
  simp [mapSet, hany]

lemma buildMap_aux {α : Type} (g : Source × FetchOutcome → α) :
    ∀ (sources : List (Source × FetchOutcome)) (m : List (String × α)),
      (∀ q ∈ sources, ∀ p ∈ m, p.1 ≠ q.1.packageId) →
      (sources.map (fun p => p.1.packageId)).Nodup →
      sources.foldl (fun m p => mapSet m p.1.packageId (g p)) m =
        m ++ sources.map (fun p => (p.1.packageId, g p)) := by
  intro sources
  induction sources with
  | nil =>
    intro m _ _
    simp
  | cons q t ih =>
    intro m hdisj hnd
    rw [List.map_cons, List.nodup_cons] at hnd
    have hqm : ∀ p ∈ m, p.1 ≠ q.1.packageId := fun p hp => hdisj q (by simp) p hp
    rw [List.foldl_cons, mapSet_of_not_mem m _ _ hqm,
      ih (m ++ [(q.1.packageId, g q)]) ?_ hnd.2]
    · simp
    · intro r hr p hp
      rcases List.mem_append.1 hp with h1 | h2
      · exact hdisj r (List.mem_cons_of_mem _ hr) p h1
      · have hp2 : p = (q.1.packageId, g q) := by simpa using h2
        subst hp2
        intro hc
        have hc' : q.1.packageId = r.1.packageId := hc
        exact hnd.1 (hc' ▸ List.mem_map_of_mem (fun p => p.1.packageId) hr)

lemma buildMap_eq_map {α : Type} (g : Source × FetchOutcome → α)
    (sources : List (Source × FetchOutcome))
    (hnd : (sources.map (fun p => p.1.packageId)).Nodup) :
    buildMap g sources = sources.map (fun p => (p.1.packageId, g p)) := by
  simpa using buildMap_aux g sources [] (by simp) hnd

lemma mapGet?_buildMap {α : Type} (g : Source × FetchOutcome → α)
    (sources : List (Source × FetchOutcome))
    (hnd : (sources.map (fun p => p.1.packageId)).Nodup) (k : String) :
    mapGet? (buildMap g sources) k =
      (sources.find? (fun p => p.1.packageId == k)).map g := by
  rw [buildMap_eq_map g sources hnd, mapGet?, List.find?_map, Option.map_map]
  rfl

lemma find?_key_of_nodup :
    ∀ (sources : List (Source × FetchOutcome)) (p : Source × FetchOutcome),
      (sources.map (fun p => p.1.packageId)).Nodup → p ∈ sources →
      sources.find? (fun q => q.1.packageId == p.1.packageId) = some p := by
  intro sources
  induction sources with
  | nil => simp
  | cons q t ih =>
    intro p hnd hp
    rw [List.map_cons, List.nodup_cons] at hnd
    rcases List.mem_cons.1 hp with h1 | h2
    · subst h1
      simp [List.find?_cons]
    · have hne : (q.1.packageId == p.1.packageId) = false := by
        rw [beq_eq_false_iff_ne]
        intro hc
        exact hnd.1 (hc ▸ List.mem_map_of_mem (fun p => p.1.packageId) h2)
      rw [List.find?_cons, hne]
      exact ih p hnd.2 h2

/-- C10: for every configured source list with distinct packageIds, the map
returned by `fetchAllSheets` has key list exactly the configured packageIds
in source order — one entry per source — and every source, a failed one
included, is present under its packageId (a failed source mapped to the
empty row list). -/
theorem C10_fetchAllSheets_one_entry_per_source
    (sources : List (Source × FetchOutcome))
    (hnd : (sources.map (fun p => p.1.packageId)).Nodup) :
    (fetchAllSheets sources).map Prod.fst = sources.map (fun p => p.1.packageId)
    ∧ ∀ p ∈ sources,
        mapGet? (fetchAllSheets sources) p.1.packageId = some (rowsForOutcome p.2) := by
  constructor
  · rw [fetchAllSheets, buildMap_eq_map _ _ hnd, List.map_map]
    rfl
  · intro p hp
    rw [fetchAllSheets, mapGet?_buildMap _ _ hnd, find?_key_of_nodup sources p hnd hp]
    rfl

/-- Witness for C10: two sources with distinct packageIds, the second one
failing; both keys are present and the failed one maps to `[]`. -/
theorem C10_witness :
    (fetchAllSheets
        [(⟨"P1", "Package 1", "u1"⟩, .ok ⟨[("Data_Entry", ⟨[], [[("Site ID", .vStr "S1")]]⟩)]⟩),
         (⟨"P2", "Package 2", "u2"⟩, .fail)]).map Prod.fst = ["P1", "P2"]
    ∧ mapGet? (fetchAllSheets
          [(⟨"P1", "Package 1", "u1"⟩,
              .ok ⟨[("Data_Entry", ⟨[], [[("Site ID", .vStr "S1")]]⟩)]⟩),
           (⟨"P2", "Package 2", "u2"⟩, .fail)]) "P2" =
        some (rowsForOutcome .fail) :=
  ⟨(C10_fetchAllSheets_one_entry_per_source _ (by decide)).1,
    (C10_fetchAllSheets_one_entry_per_source _ (by decide)).2
      (⟨"P2", "Package 2", "u2"⟩, .fail) (by decide)⟩

/-- C5: a failure in one source's fetch pipeline never prevents the other
sources' data from being returned — both aggregators still hold every other
source's result unchanged (as if the failing source were absent), while the
failing source itself maps to the empty row list in `fetchAllSheets` and to
the Unknown compliance record in `fetchAllComplianceData`. -/
theorem C5_per_source_failure_isolation
    (pre post : List (Source × FetchOutcome)) (s : Source)
    (hnd : ((pre ++ (s, .fail) :: post).map (fun p => p.1.packageId)).Nodup) :
    (∀ pid, pid ≠ s.packageId →
      mapGet? (fetchAllSheets (pre ++ (s, .fail) :: post)) pid =
        mapGet? (fetchAllSheets (pre ++ post)) pid ∧
      mapGet? (fetchAllComplianceData (pre ++ (s, .fail) :: post)) pid =
        mapGet? (fetchAllComplianceData (pre ++ post)) pid)
    ∧ mapGet? (fetchAllSheets (pre ++ (s, .fail) :: post)) s.packageId = some []
    ∧ mapGet? (fetchAllComplianceData (pre ++ (s, .fail) :: post)) s.packageId =
        some (parseComplianceData none) := by
  have hsub : ((pre ++ post).map (fun p => p.1.packageId)).Sublist
      ((pre ++ (s, .fail) :: post).map (fun p => p.1.packageId)) :=
    List.Sublist.map _ ((List.sublist_cons_self _ post).append_left pre)
  have hnd' : ((pre ++ post).map (fun p => p.1.packageId)).Nodup := hnd.sublist hsub
  have hfind : ∀ pid, pid ≠ s.packageId →
      (pre ++ (s, FetchOutcome.fail) :: post).find?
          (fun p => p.1.packageId == pid) =
        (pre ++ post).find? (fun p => p.1.packageId == pid) := by
    intro pid hpid
    have hs : (s.packageId == pid) = false := by
      rw [beq_eq_false_iff_ne]
      exact fun hc => hpid (hc ▸ rfl)
    rw [List.find?_append, List.find?_append, List.find?_cons]
    simp only [hs]
  have hnotpre : s.packageId ∉ pre.map (fun p : Source × FetchOutcome => p.1.packageId) := by
    rw [List.map_append, List.map_cons] at hnd
    intro hc
    exact (List.disjoint_of_nodup_append hnd) hc (by simp)
  have hfinds :
      (pre ++ (s, FetchOutcome.fail) :: post).find?
          (fun p => p.1.packageId == s.packageId) = some (s, .fail) := by
    rw [List.find?_append]
    have hpre : pre.find? (fun p => p.1.packageId == s.packageId) = none := by
      rw [List.find?_eq_none]
      intro p hp hb
      exact hnotpre (by
        have : p.1.packageId = s.packageId := by simpa using hb
        exact this ▸ List.mem_map_of_mem _ hp)
    rw [hpre, List.find?_cons]
    simp
  refine ⟨fun pid hpid => ?_, ?_, ?_⟩
  · constructor
    · rw [fetchAllSheets, fetchAllSheets, mapGet?_buildMap _ _ hnd,
        mapGet?_buildMap _ _ hnd', hfind pid hpid]
    · rw [fetchAllComplianceData, fetchAllComplianceData, mapGet?_buildMap _ _ hnd,
        mapGet?_buildMap _ _ hnd', hfind pid hpid]
  · rw [fetchAllSheets, mapGet?_buildMap _ _ hnd, hfinds]
    rfl
  · rw [fetchAllComplianceData, mapGet?_buildMap _ _ hnd, hfinds]
    rfl

/-- Witness for C5: of three sources the middle one fails; the other two keep
their results and the failing one degrades to `[]` / the Unknown record. -/
theorem C5_witness :
    mapGet? (fetchAllSheets
        [(⟨"P1", "Package 1", "u1"⟩, .ok ⟨[("Data_Entry", ⟨[], [[("Site ID", .vStr "S1")]]⟩)]⟩),
         (⟨"P2", "Package 2", "u2"⟩, .fail),
         (⟨"P3", "Package 3", "u3"⟩, .ok ⟨[("Data_Entry", ⟨[], [[("Site ID", .vStr "S3")]]⟩)]⟩)])
      "P2" = some []
    ∧ mapGet? (fetchAllComplianceData
        [(⟨"P1", "Package 1", "u1"⟩, .ok ⟨[("Data_Entry", ⟨[], [[("Site ID", .vStr "S1")]]⟩)]⟩),
         (⟨"P2", "Package 2", "u2"⟩, .fail),
         (⟨"P3", "Package 3", "u3"⟩, .ok ⟨[("Data_Entry", ⟨[], [[("Site ID", .vStr "S3")]]⟩)]⟩)])
      "P2" = some (parseComplianceData none) :=
  (C5_per_source_failure_isolation
    [(⟨"P1", "Package 1", "u1"⟩, .ok ⟨[("Data_Entry", ⟨[], [[("Site ID", .vStr "S1")]]⟩)]⟩)]
    [(⟨"P3", "Package 3", "u3"⟩, .ok ⟨[("Data_Entry", ⟨[], [[("Site ID", .vStr "S3")]]⟩)]⟩)]
    ⟨"P2", "Package 2", "u2"⟩ (by decide)).2

/-- A candidate column qualifies when its key is present with a non-null,
non-empty value — the claim's "first present, non-empty value" under exact
(case- and whitespace-sensitive) key match. -/
def isPresentNonEmpty (c : Option Value) : Bool :=
  match c with
  | none => false
  | some v => v != .vStr ""

lemma findColumnValue_first_match (names : List String) (row : Row) :
    findColumnValue names row =
      (names.find? fun n => isPresentNonEmpty (row.get? n)).bind row.get? := by
  induction names with
  | nil => rfl
  | cons n rest ih =>
    rw [List.find?_cons]
    cases h : row.get? n with
    | none =>
      have hp : isPresentNonEmpty none = false := rfl
      rw [hp]
      simpa [findColumnValue, h] using ih
    | some v =>
      by_cases hv : v = .vStr ""
      · subst hv
        have hp : isPresentNonEmpty (some (.vStr "")) = false := by decide
        rw [hp]
        simpa [findColumnValue, h] using ih
      · have hp : isPresentNonEmpty (some v) = true := by
          simpa [isPresentNonEmpty] using hv
        rw [hp]
        simp [findColumnValue, h, hv]

/-- C6: for each of the three compliance fields, `fetchAllComplianceData`
scans the field's candidate header-name list in the given priority order
under exact key match and takes the first present, non-empty value; when the
worksheet/row is absent entirely, or all three values normalize to Unknown,
the package's result is an Unknown compliance record carrying exactly one
diagnostic issue. -/
theorem C6_header_scan_and_unknown_degradation :
    (∀ names row, findColumnValue names row =
        (names.find? fun n => isPresentNonEmpty (row.get? n)).bind row.get?)
    ∧ (∀ f : FetchOutcome, complianceRow f = none →
        complianceForOutcome f =
          { no_of_staff_rfb := none, cesmps_submitted := none, ohs_measures := none
          , status := .UNKNOWN, issues := ["Compliance data not available"] })
    ∧ (∀ row : Row, parseYesNo (rawFromRow row).no_of_staff_rfb = none →
        parseYesNo (rawFromRow row).cesmps_submitted = none →
        parseYesNo (rawFromRow row).ohs_measures = none →
        complianceForOutcome (.ok ⟨[("Data_Entry", ⟨[], [row]⟩)]⟩) =
          { no_of_staff_rfb := none, cesmps_submitted := none, ohs_measures := none
          , status := .UNKNOWN, issues := ["All compliance fields are blank"] }) := by
  refine ⟨findColumnValue_first_match, fun f h => ?_, fun row h1 h2 h3 => ?_⟩
  · simp [complianceForOutcome, h, parseComplianceData]
  · have hrow : complianceRow (.ok ⟨[("Data_Entry", ⟨[], [row]⟩)]⟩) = some row := rfl
    simp only [complianceForOutcome, hrow, parseComplianceData, h1, h2, h3]
    decide

/-- Witness for C6: a failed fetch degrades to the "data not available"
Unknown record, and a row whose three scanned values all normalize to
Unknown degrades to the "all blank" Unknown record. -/
theorem C6_witness :
    complianceForOutcome .fail =
      { no_of_staff_rfb := none, cesmps_submitted := none, ohs_measures := none
      , status := .UNKNOWN, issues := ["Compliance data not available"] }
    ∧ complianceForOutcome
        (.ok ⟨[("Data_Entry", ⟨[], [[("CESMPS", .vStr "maybe")]]⟩)]⟩) =
      { no_of_staff_rfb := none, cesmps_submitted := none, ohs_measures := none
      , status := .UNKNOWN, issues := ["All compliance fields are blank"] } :=
  ⟨C6_header_scan_and_unknown_degradation.2.1 .fail rfl,
    C6_header_scan_and_unknown_degradation.2.2 [("CESMPS", .vStr "maybe")]
      (by decide) (by decide) (by decide)⟩

/-- A worksheet holding "released" in all six IPC cells (row index 1,
columns 24..29) and no `sheet_to_json` rows. -/
def ipcOnlySheet : Worksheet :=
  { cells :=
      [((1, 24), .vStr "released"), ((1, 25), .vStr "released"),
       ((1, 26), .vStr "released"), ((1, 27), .vStr "released"),
       ((1, 28), .vStr "released"), ((1, 29), .vStr "released")]
  , rows := [] }

/-- A workbook whose only worksheet is not named "Data_Entry". -/
def ipcOnlyWorkbook : Workbook := ⟨[("Sheet1", ipcOnlySheet)]⟩

/-- Counterexample to C7: in the IPC fetch path there is no fallback to the
first worksheet.  On a workbook whose only (first) worksheet is named
"Sheet1" and holds six "released" IPC cells, `fetchAllIPCData` with the
configured tab name "Data_Entry" returns the empty record list — not the six
records that parsing the first worksheet would give, as the claim's
fall-back-in-every-path reading requires. -/
theorem C7_counterexample :
    fetchAllIPCData [⟨"P1", "Package 1", "u1"⟩] "Data_Entry" (.ok ipcOnlyWorkbook) =
      { records := [] }
    ∧ fetchAllIPCData [⟨"P1", "Package 1", "u1"⟩] "Data_Entry" (.ok ipcOnlyWorkbook) ≠
        parseIPCData ipcOnlySheet.cells
    ∧ (parseIPCData ipcOnlySheet.cells).records.length = 6 := by
  decide

/-- C7 amended: the task-row and compliance fetch paths prefer the worksheet
named "Data_Entry" and, when it is absent, fall back to the first worksheet
of the workbook; the IPC fetch path instead looks up only the configured tab
name and, when that tab is absent, degrades to the empty record list rather
than falling back. -/
theorem C7_amended_worksheet_selection :
    (∀ wb : Workbook, wb.sheetNames.contains "Data_Entry" = true →
      selectSheetName wb = some "Data_Entry")
    ∧ (∀ wb : Workbook, wb.sheetNames.contains "Data_Entry" = false →
        selectSheet wb = wb.sheets.head?.map Prod.snd)
    ∧ (∀ wb : Workbook, wb.sheetNames.contains "Data_Entry" = false →
        rowsForOutcome (.ok wb) = ((wb.sheets.head?.map fun p => p.2.rows).getD []) ∧
        complianceRow (.ok wb) = (wb.sheets.head?.map Prod.snd).bind fun ws => ws.rows.head?)
    ∧ (∀ (src : Source) (rest : List Source) (tab : String) (wb : Workbook),
        wb.findSheet tab = none →
        fetchAllIPCData (src :: rest) tab (.ok wb) = { records := [] }) := by
  have hsel : ∀ wb : Workbook, wb.sheetNames.contains "Data_Entry" = false →
      selectSheet wb = wb.sheets.head?.map Prod.snd := by
    intro wb h
    rw [selectSheet, selectSheetName, h]
    cases hw : wb.sheets with
    | nil =>
      rw [Workbook.sheetNames, hw]
      rfl
    | cons p t =>
      rw [Workbook.sheetNames, hw]
      simp [Workbook.findSheet, List.find?_cons, hw]
  refine ⟨fun wb h => ?_, hsel, fun wb h => ?_, fun src rest tab wb h => ?_⟩
  · rw [selectSheetName, h]
    rfl
  · constructor
    · rw [rowsForOutcome, hsel wb h]
      cases wb.sheets with
      | nil => rfl
      | cons p t => rfl
    · rw [complianceRow, hsel wb h]
  · simp [fetchAllIPCData, h]

/-- Witness for C7's amended claim: a workbook whose only worksheet is named
"Other" — the task/compliance selection falls back to it, while the IPC path
returns no records. -/
theorem C7_witness :
    selectSheet ⟨[("Other", ⟨[], [[("Site ID", .vStr "S1")]]⟩)]⟩ =
      (⟨[("Other", ⟨[], [[("Site ID", .vStr "S1")]]⟩)]⟩ : Workbook).sheets.head?.map Prod.snd
    ∧ fetchAllIPCData [⟨"P1", "Package 1", "u1"⟩] "Data_Entry"
        (.ok ⟨[("Other", ⟨[], [[("Site ID", .vStr "S1")]]⟩)]⟩) = { records := [] } :=
  ⟨C7_amended_worksheet_selection.2.1 _ (by decide),
    C7_amended_worksheet_selection.2.2.2 _ [] "Data_Entry" _ (by decide)⟩

/-- A calendar date as produced by the repository's day-month-year parser. -/
structure Date where
  day : Nat
  month : Nat
  year : Nat
deriving DecidableEq, Repr

/-- A non-empty all-digit character group read as a decimal number. -/
def digitsToNat? (cs : List Char) : Option Nat :=
  if cs ≠ [] ∧ cs.all Char.isDigit then
    some (cs.foldl (fun n c => 10 * n + (c.toNat - 48)) 0)
  else none

/-- Split a character list on a separator (used by the date parser). -/
def splitOnChar (sep : Char) (cs : List Char) : List (List Char) :=
  match cs with
  | [] => [[]]
  | c :: rest =>
    let r := splitOnChar sep rest
    if c == sep then [] :: r
    else
      match r with
      | [] => [[c]]
      | g :: gs => (c :: g) :: gs

/-- Modelled from the spec: `parseDMY` is imported from `../dataParser`,
which is not among the provided sources.  Per the specification, date
fields are "parsed via a day-month-year convention; unparseable values
become absent", and mapping never raises; this total day/month/year parser
follows those words. -/
def parseDMY (s : String) : Option Date :=
  match (splitOnChar '/' s.data).map digitsToNat? with
  | [some d, some m, some y] =>
    if 1 ≤ d ∧ d ≤ 31 ∧ 1 ≤ m ∧ m ≤ 12 then some ⟨d, m, y⟩ else none
  | _ => none

/-- Modelled from the JavaScript `Number()` builtin, restricted to the
integer strings this pipeline's numeric cells hold: optional sign and
decimal digits after trimming; the empty string is 0; anything else is NaN
(`none`).  Fractional and exponent forms are out of the model — no claim
under verification depends on them. -/
def jsStringToNumber (s : String) : Option Int :=
  match (jsTrim s).data with
  | [] => some 0
  | '-' :: rest => (digitsToNat? rest).map (fun n => -(n : Int))
  | '+' :: rest => (digitsToNat? rest).map (fun n => (n : Int))
  | cs => (digitsToNat? cs).map (fun n => (n : Int))

/-- JavaScript `Number(val)` on a present value (`NaN` is `none`). -/
def jsNumber : Value → Option Int
  | .vNum n => some n
  | .vStr s => jsStringToNumber s

/-- JavaScript `||` on two cell reads: `row[key1] || row[key2]`. -/
def jsOr (a b : Option Value) : Option Value := if jsTruthy a then a else b

/-- `Task` (`@/types`), as far as `mapRowToTask` populates it. -/
structure Task where
  package_id : String
  package_name : String
  district : String
  site_id : String
  site_name : String
  discipline : String
  task_name : String
  planned_start : Option Date
  planned_finish : Option Date
  planned_duration_days : Option Int
  actual_start : Option Date
  actual_finish : Option Date
  progress_pct : Option Int
  Variance : Option Int
  delay_flag_calc : String
  last_updated : Option Date
  remarks : String
  photo_folder_url : String
  cover_photo_share_url : String
  before_photo_share_url : String
  after_photo_share_url : String
  cover_photo_direct_url : Option String
  before_photo_direct_url : Option String
  after_photo_direct_url : Option String
deriving DecidableEq, Repr

/-- `getValue` (google-sheets-client.ts:361-364), lifted out of
`mapRowToTask`: `const val = row[key1] || row[key2];
return val ? String(val).trim() : ''`. -/
def getValue (row : Row) (key1 key2 : String) : String :=
  match jsOr (row.get? key1) (row.get? key2) with
  | some v => if v.truthy then jsTrim (valueToString v) else ""
  | none => ""

/-- `getNumber` (google-sheets-client.ts:366-371), lifted out of
`mapRowToTask`: `null`/`undefined`/`''` become `null`; otherwise
`Number(val)`, with `NaN` to `null`. -/
def getNumber (row : Row) (key1 key2 : String) : Option Int :=
  match jsOr (row.get? key1) (row.get? key2) with
  | none => none
  | some (.vStr "") => none
  | some v => jsNumber v

/-- `mapRowToTask` (google-sheets-client.ts:353-403).  The embedded helpers
are all total, so the function's `try`/`catch` has no reachable catch path
in the model. -/
def mapRowToTask (row : Row) (packageId packageName : String) : Option Task :=
  if ¬ jsTruthy (row.get? "Site ID") ∧ ¬ jsTruthy (row.get? "site_id") then none
  else some
    { package_id := packageId
    , package_name := packageName
    , district := getValue row "District" "district"
    , site_id := getValue row "Site ID" "site_id"
    , site_name := getValue row "Site Name" "site_name"
    , discipline := getValue row "Discipline" "discipline"
    , task_name := getValue row "Task Name" "task_name"
    , planned_start := parseDMY (getValue row "Planned Start" "planned_start")
    , planned_finish := parseDMY (getValue row "Planned Finish" "planned_finish")
    , planned_duration_days :=
        getNumber row "Planned Duration (Days)" "planned_duration_days"
    , actual_start := parseDMY (getValue row "Actual Start" "actual_start")
    , actual_finish := parseDMY (getValue row "Actual Finish" "actual_finish")
    , progress_pct := getNumber row "Progress %" "progress_pct"
    , Variance := getNumber row "Variance" "Variance"
    , delay_flag_calc := getValue row "Delay Flag" "delay_flag_calc"
    , last_updated := parseDMY (getValue row "Last Updated" "last_updated")
    , remarks := getValue row "Remarks" "remarks"
    , photo_folder_url := getValue row "Photo Folder" "photo_folder_url"
    , cover_photo_share_url := getValue row "Cover Photo" "cover_photo_share_url"
    , before_photo_share_url := getValue row "Before Photo" "before_photo_share_url"
    , after_photo_share_url := getValue row "After Photo" "after_photo_share_url"
    , cover_photo_direct_url := none
    , before_photo_direct_url := none
    , after_photo_direct_url := none }

/-- The claim's "absent or empty" reading of a site-identifier cell. -/
def absentOrEmpty (c : Option Value) : Prop := c = none ∨ c = some (.vStr "")

instance (c : Option Value) : Decidable (absentOrEmpty c) := by
  unfold absentOrEmpty
  infer_instance

/-- Counterexample to C4: the claim's "returns null iff both site-identifier
spellings are absent or empty" fails at a row whose `Site ID` cell holds the
number 0 — a present, non-empty value that is nevertheless JavaScript-falsy,
so `!row['Site ID'] && !row['site_id']` drops the row. -/
theorem C4_counterexample :
    ¬ ((mapRowToTask [("Site ID", .vNum 0)] "P1" "Package 1" = none) ↔
        (absentOrEmpty (Row.get? [("Site ID", .vNum 0)] "Site ID") ∧
          absentOrEmpty (Row.get? [("Site ID", .vNum 0)] "site_id"))) := by
  decide

/-- C4 amended: `mapRowToTask` returns no record iff both accepted spellings
of the site-identifier field are JavaScript-falsy — absent, empty string, or
the number 0.  This remains the sole filtering rule: the condition reads
only the two site-identifier cells, so no other field can drop a row. -/
theorem C4_amended_sole_filter_rule (row : Row) (pid pname : String) :
    mapRowToTask row pid pname = none ↔
      (jsTruthy (row.get? "Site ID") = false ∧ jsTruthy (row.get? "site_id") = false) := by
  by_cases h1 : jsTruthy (row.get? "Site ID")
  · simp [mapRowToTask, h1]
  · by_cases h2 : jsTruthy (row.get? "site_id")
    · simp [mapRowToTask, h1, h2]
    · simp [mapRowToTask, h1, h2]

/-- The amended per-field selection rule: of the two accepted spellings, the
first whose value is JavaScript-truthy (present, non-empty and, for a
number, non-zero) wins. -/
def firstTruthy (a b : Option Value) : Option Value :=
  if jsTruthy a then a else if jsTruthy b then b else none

/-- Counterexample to C8: "the first non-empty of the two spellings wins"
fails when the first spelling holds the number 0 — present and non-empty,
yet `row[key1] || row[key2]` skips it, so the second spelling's 5 wins. -/
theorem C8_counterexample :
    (mapRowToTask
        [("Site ID", .vStr "S1"), ("Progress %", .vNum 0), ("progress_pct", .vNum 5)]
        "P1" "Package 1").map Task.progress_pct = some (some 5)
    ∧ Row.get? [("Site ID", .vStr "S1"), ("Progress %", .vNum 0), ("progress_pct", .vNum 5)]
        "Progress %" = some (.vNum 0)
    ∧ isPresentNonEmpty
        (Row.get? [("Site ID", .vStr "S1"), ("Progress %", .vNum 0), ("progress_pct", .vNum 5)]
          "Progress %") = true := by
  decide

lemma getValue_core (a b : Option Value) :
    (match jsOr a b with
      | some v => if v.truthy then jsTrim (valueToString v) else ""
      | none => "") =
      (match firstTruthy a b with
        | some v => jsTrim (valueToString v)
        | none => "") := by
  cases a with
  | none =>
    cases b with
    | none => rfl
    | some vb => by_cases h : vb.truthy <;> simp [jsOr, firstTruthy, jsTruthy, h]
  | some va =>
    by_cases ha : va.truthy
    · simp [jsOr, firstTruthy, jsTruthy, ha]
    · cases b with
      | none => simp [jsOr, firstTruthy, jsTruthy, ha]
      | some vb => by_cases hb : vb.truthy <;> simp [jsOr, firstTruthy, jsTruthy, ha, hb]

/-- C8 amended: for string fields the first JavaScript-truthy of the two
accepted spellings wins and the field defaults to the empty string; for
numeric fields a truthy first spelling wins, otherwise the second spelling's
value is used whenever it is present and not the empty string (a numeric 0
there is returned as 0), else the field is absent; a non-parseable numeric
value becomes absent (`none`) while the row still maps to a record —
the mapping is total and never drops a row over a non-site field. -/
theorem C8_amended_field_fallback :
    (∀ (row : Row) (k1 k2 : String), getValue row k1 k2 =
        (match firstTruthy (row.get? k1) (row.get? k2) with
          | some v => jsTrim (valueToString v)
          | none => ""))
    ∧ (∀ (row : Row) (k1 k2 : String),
        (jsTruthy (row.get? k1) = true →
          getNumber row k1 k2 = (row.get? k1).bind jsNumber)
        ∧ (jsTruthy (row.get? k1) = false →
            getNumber row k1 k2 =
              (match row.get? k2 with
                | none => none
                | some (.vStr "") => none
                | some v => jsNumber v)))
    ∧ (∀ (row : Row) (pid pname : String), jsTruthy (row.get? "Site ID") = true →
        (mapRowToTask row pid pname).isSome = true ∧
        (mapRowToTask row pid pname).map Task.progress_pct =
          some (getNumber row "Progress %" "progress_pct")) := by
  refine ⟨fun row k1 k2 => getValue_core _ _, fun row k1 k2 => ⟨fun h => ?_, fun h => ?_⟩,
    fun row pid pname h => ?_⟩
  · rw [getNumber, jsOr, if_pos h]
    cases hg : row.get? k1 with
    | none => rw [hg] at h; simp [jsTruthy] at h
    | some v =>
      rw [hg] at h
      have hv : v.truthy = true := h
      cases v with
      | vStr s =>
        have hs : s ≠ "" := by simpa [Value.truthy] using hv
        simp [hs]
      | vNum n => simp
  · rw [getNumber, jsOr, if_neg (by simp [h])]
  · have hcond : ¬ (¬ jsTruthy (row.get? "Site ID") ∧ ¬ jsTruthy (row.get? "site_id")) := by
      simp [h]
    constructor
    · rw [mapRowToTask, if_neg hcond]
      rfl
    · rw [mapRowToTask, if_neg hcond]
      rfl

/-- Witness for C8's amended claim: a padded string field is trimmed through
the fallback rule, and a non-parseable numeric cell maps to an absent field
in a still-present record. -/
theorem C8_witness :
    getValue [("District", .vStr " D1 ")] "District" "district" = "D1"
    ∧ (mapRowToTask [("Site ID", .vStr "S1"), ("Progress %", .vStr "abc")] "P1"
        "Package 1").map Task.progress_pct = some none :=
  ⟨(C8_amended_field_fallback.1 [("District", .vStr " D1 ")] "District" "district").trans
      (by decide),
    ((C8_amended_field_fallback.2.2 [("Site ID", .vStr "S1"), ("Progress %", .vStr "abc")]
        "P1" "Package 1" (by decide)).2).trans (by decide)⟩

end GS
